import Mathlib

/-!
Verification of the Plant Disease Detection service (Flask backend + React
frontend).  Numeric values are modelled with `ℚ`; the backend pipeline
(`app.py` is not part of the checked-in sources, only its documentation and
the React client are) is modelled from the specification, as marked on each
definition.  The React components are translated from the JSX sources under
`Frontend/src/components` and the extracted component files.
-/

namespace PlantDisease

/-- Modelled from the spec: the ordered class catalog, established from the
model output configuration; the reference configuration (README, `/classes`
endpoint) lists exactly these three classes in this order. -/
def classCatalog : List String := ["Early Blight", "Late Blight", "Healthy"]

/-- Modelled from the spec: an advisory entry is a status label plus an
ordered list of tip strings (§3 AdvisoryBundle). -/
structure AdvisoryEntry where
  status : String
  tips : List String
deriving DecidableEq

/-- Modelled from the spec: a prediction result carries the selected label,
a confidence percentage, and a per-class breakdown (§3 PredictionResult). -/
structure PredictionResult where
  label : String
  confidence : ℚ
  breakdown : List (String × ℚ)
deriving DecidableEq

/-- Modelled from the spec: argmax over a score vector, the first index of
the maximum value winning ties (§4.4, `np.argmax` semantics). -/
def argmax : List ℚ → ℕ
  | [] => 0
  | x :: xs => if ∀ y ∈ xs, y ≤ x then 0 else argmax xs + 1

/-- Modelled from the spec: the maximum entry of a score vector (`max(vector)`,
§4.4); `0` on the empty vector, which never arises in the pipeline. -/
def listMax : List ℚ → ℚ
  | [] => 0
  | [x] => x
  | x :: y :: t => max x (listMax (y :: t))

/-- Modelled from the spec: rounding to two decimal places (§4.4 confidence
display rounding). -/
def round2 (q : ℚ) : ℚ := ((round (q * 100) : ℤ) : ℚ) / 100

/-- Modelled from the spec: `interpret(ProbabilityVector, ClassCatalog,
AdvisoryBundle)` (§4.4): label by first-maximum argmax through the catalog,
confidence `max(vector) * 100` rounded to 2 decimals, breakdown pairing each
class name with its raw probability, and advisory lookup by label with an
empty tips list on a miss. -/
def interpret (v : List ℚ) (catalog : List String)
    (bundle : List (String × AdvisoryEntry)) :
    PredictionResult × AdvisoryEntry :=
  let label := catalog.getD (argmax v) ""
  let advisory :=
    match bundle.find? (fun p => p.1 = label) with
    | some p => p.2
    | none => ⟨"", []⟩
  (⟨label, round2 (100 * listMax v), catalog.zip v⟩, advisory)

/-- Status color lookup translated from the `getStatusColor` switch of
`PredictorCard` (Header.jsx, both variants have the identical function). -/
def getStatusColor (disease : String) : String :=
  if disease = "Healthy" then "#4CAF50"
  else if disease = "Early Blight" then "#FF9800"
  else if disease = "Late Blight" then "#F44336"
  else "#2196F3"

/-- Status emoji lookup translated from the `getStatusEmoji` switch of
`PredictorCard` (Header.jsx, both variants have the identical function). -/
def getStatusEmoji (disease : String) : String :=
  if disease = "Healthy" then "🟢"
  else if disease = "Early Blight" then "🟠"
  else if disease = "Late Blight" then "🔴"
  else "❓"

lemma argmax_lt_length : ∀ v : List ℚ, v ≠ [] → argmax v < v.length := by
  intro v
  induction v with
  | nil => intro h; exact absurd rfl h
  | cons x xs ih =>
    intro _
    by_cases hc : ∀ y ∈ xs, y ≤ x
    · simp only [argmax, List.length_cons]
      rw [if_pos hc]
      omega
    · have hxs : xs ≠ [] := by
        intro he
        exact hc (by simp [he])
      have := ih hxs
      simp only [argmax, if_neg hc, List.length_cons]
      omega

lemma getD_le_getD_argmax :
    ∀ (v : List ℚ) (i : ℕ), i < v.length →
      v.getD i 0 ≤ v.getD (argmax v) 0 := by
  intro v
  induction v with
  | nil => intro i hi; simp at hi
  | cons x xs ih =>
    intro i hi
    by_cases hc : ∀ y ∈ xs, y ≤ x
    · simp only [argmax, if_pos hc, List.getD_cons_zero]
      match i with
      | 0 => simp
      | j + 1 =>
        simp only [List.getD_cons_succ]
        have hj : j < xs.length := by simpa using hi
        have hmem : xs.getD j 0 ∈ xs := by
          rw [List.getD_eq_getElem xs 0 hj]
          exact List.getElem_mem hj
        exact hc _ hmem
    · simp only [argmax, if_neg hc, List.getD_cons_succ]
      push_neg at hc
      obtain ⟨y, hy, hxy⟩ := hc
      obtain ⟨k, hk, hky⟩ := List.mem_iff_getElem.mp hy
      have hyk : xs.getD k 0 = y := by rw [List.getD_eq_getElem xs 0 hk, hky]
      have hkmax : xs.getD k 0 ≤ xs.getD (argmax xs) 0 := ih k hk
      match i with
      | 0 =>
        simp only [List.getD_cons_zero]
        calc x ≤ y := le_of_lt hxy
        _ = xs.getD k 0 := hyk.symm
        _ ≤ xs.getD (argmax xs) 0 := hkmax
      | j + 1 =>
        simp only [List.getD_cons_succ]
        exact ih j (by simpa using hi)

lemma argmax_le_of_getD_eq :
    ∀ (v : List ℚ) (i : ℕ), i < v.length →
      v.getD i 0 = v.getD (argmax v) 0 → argmax v ≤ i := by
  intro v
  induction v with
  | nil => intro i hi; simp at hi
  | cons x xs ih =>
    intro i hi heq
    by_cases hc : ∀ y ∈ xs, y ≤ x
    · simp [argmax, if_pos hc]
    · simp only [argmax, if_neg hc] at heq ⊢
      push_neg at hc
      obtain ⟨y, hy, hxy⟩ := hc
      obtain ⟨k, hk, hky⟩ := List.mem_iff_getElem.mp hy
      have hyk : xs.getD k 0 = y := by rw [List.getD_eq_getElem xs 0 hk, hky]
      have hkmax : xs.getD k 0 ≤ xs.getD (argmax xs) 0 := getD_le_getD_argmax xs k hk
      match i with
      | 0 =>
        exfalso
        simp only [List.getD_cons_zero, List.getD_cons_succ] at heq
        have hlt : x < xs.getD (argmax xs) 0 := lt_of_lt_of_le (hyk ▸ hxy) hkmax
        exact absurd heq (ne_of_lt hlt)
      | j + 1 =>
        simp only [List.getD_cons_succ] at heq
        have := ih j (by simpa using hi) heq
        omega

lemma le_listMax : ∀ (v : List ℚ), ∀ y ∈ v, y ≤ listMax v := by
  intro v
  induction v with
  | nil => intro y hy; simp at hy
  | cons x xs ih =>
    intro y hy
    match xs, hy with
    | [], hy => simp at hy; simp [listMax, hy]
    | z :: t, hy =>
      simp only [listMax]
      rcases List.mem_cons.mp hy with h | h
      · exact h ▸ le_max_left _ _
      · exact le_trans (ih y h) (le_max_right _ _)

lemma listMax_mem : ∀ v : List ℚ, v ≠ [] → listMax v ∈ v := by
  intro v
  induction v with
  | nil => intro h; exact absurd rfl h
  | cons x xs ih =>
    intro _
    match xs with
    | [] => simp [listMax]
    | z :: t =>
      simp only [listMax]
      rcases le_total x (listMax (z :: t)) with h | h
      · rw [max_eq_right h]
        exact List.mem_cons_of_mem _ (ih (by simp))
      · rw [max_eq_left h]
        exact List.mem_cons_self _ _

lemma getD_argmax_eq_listMax (v : List ℚ) (hv : v ≠ []) :
    v.getD (argmax v) 0 = listMax v := by
  have hlt := argmax_lt_length v hv
  have hmem : v.getD (argmax v) 0 ∈ v := by
    rw [List.getD_eq_getElem v 0 hlt]
    exact List.getElem_mem hlt
  have h1 : v.getD (argmax v) 0 ≤ listMax v := le_listMax v _ hmem
  obtain ⟨k, hk, hkeq⟩ := List.mem_iff_getElem.mp (listMax_mem v hv)
  have h2 : listMax v ≤ v.getD (argmax v) 0 := by
    rw [← hkeq, ← List.getD_eq_getElem v 0 hk]
    exact getD_le_getD_argmax v k hk
  exact le_antisymm h1 h2

/-- Claim C1: `interpret` selects its label by argmax over the probability
vector, the selected index attains the maximum, every entry is bounded by the
entry at the selected index, and any index attaining the same value is at or
after the selected one (ties broken by lowest index); being a function of the
vector, the selection is reproducible across repeated calls. -/
theorem interpret_argmax_first (v : List ℚ) (catalog : List String)
    (bundle : List (String × AdvisoryEntry)) (hv : v ≠ []) :
    (interpret v catalog bundle).1.label = catalog.getD (argmax v) "" ∧
    argmax v < v.length ∧
    v.getD (argmax v) 0 = listMax v ∧
    (∀ i, i < v.length → v.getD i 0 ≤ v.getD (argmax v) 0) ∧
    (∀ i, i < v.length → v.getD i 0 = v.getD (argmax v) 0 → argmax v ≤ i) := by
  refine ⟨rfl, argmax_lt_length v hv, getD_argmax_eq_listMax v hv, ?_, ?_⟩
  · exact fun i hi => getD_le_getD_argmax v i hi
  · exact fun i hi h => argmax_le_of_getD_eq v i hi h

/-- Claim C1 witness: a tied vector (two maximal entries) resolved at the
lower index, on the reference catalog. -/
theorem interpret_argmax_first_witness :
    ([(1 : ℚ)/2, 1/2, 0] ≠ []) ∧
    ((interpret [(1 : ℚ)/2, 1/2, 0] classCatalog []).1.label =
        classCatalog.getD (argmax [(1 : ℚ)/2, 1/2, 0]) "" ∧
      argmax [(1 : ℚ)/2, 1/2, 0] < ([(1 : ℚ)/2, 1/2, 0] : List ℚ).length ∧
      ([(1 : ℚ)/2, 1/2, 0] : List ℚ).getD (argmax [(1 : ℚ)/2, 1/2, 0]) 0 =
        listMax [(1 : ℚ)/2, 1/2, 0] ∧
      (∀ i, i < ([(1 : ℚ)/2, 1/2, 0] : List ℚ).length →
        ([(1 : ℚ)/2, 1/2, 0] : List ℚ).getD i 0 ≤
          ([(1 : ℚ)/2, 1/2, 0] : List ℚ).getD (argmax [(1 : ℚ)/2, 1/2, 0]) 0) ∧
      (∀ i, i < ([(1 : ℚ)/2, 1/2, 0] : List ℚ).length →
        ([(1 : ℚ)/2, 1/2, 0] : List ℚ).getD i 0 =
          ([(1 : ℚ)/2, 1/2, 0] : List ℚ).getD (argmax [(1 : ℚ)/2, 1/2, 0]) 0 →
        argmax [(1 : ℚ)/2, 1/2, 0] ≤ i)) :=
  ⟨by decide, interpret_argmax_first [(1 : ℚ)/2, 1/2, 0] classCatalog [] (by decide)⟩

/-- Claim C2: on a probability vector of length N (catalog of N classes,
entries summing to 1), `interpret` reports a confidence equal to
`100 * max(vector)` rounded to 2 decimals, the maximum is attained by an
entry, and the breakdown has exactly N entries — one per class name, carrying
the raw (unrounded) probabilities — whose values sum to 1. -/
theorem interpret_confidence_breakdown (v : List ℚ) (catalog : List String)
    (bundle : List (String × AdvisoryEntry))
    (hlen : catalog.length = v.length) (hsum : v.sum = 1) :
    (interpret v catalog bundle).1.confidence = round2 (100 * listMax v) ∧
    listMax v ∈ v ∧
    (interpret v catalog bundle).1.breakdown.length = v.length ∧
    (interpret v catalog bundle).1.breakdown.map Prod.fst = catalog ∧
    (interpret v catalog bundle).1.breakdown.map Prod.snd = v ∧
    ((interpret v catalog bundle).1.breakdown.map Prod.snd).sum = 1 := by
  have hv : v ≠ [] := by
    intro he
    rw [he] at hsum
    simp at hsum
  have hsnd : (catalog.zip v).map Prod.snd = v :=
    List.map_snd_zip catalog v (le_of_eq hlen.symm)
  refine ⟨rfl, listMax_mem v hv, ?_, ?_, ?_, ?_⟩
  · show (catalog.zip v).length = v.length
    rw [List.length_zip, hlen, min_self]
  · exact List.map_fst_zip catalog v (le_of_eq hlen)
  · exact hsnd
  · show ((catalog.zip v).map Prod.snd).sum = 1
    rw [hsnd, hsum]

/-- Claim C2 witness: the reference three-class catalog with a concrete
probability vector summing to 1. -/
theorem interpret_confidence_breakdown_witness :
    (classCatalog.length = ([(1 : ℚ)/4, 1/4, 1/2] : List ℚ).length ∧
      ([(1 : ℚ)/4, 1/4, 1/2] : List ℚ).sum = 1) ∧
    ((interpret [(1 : ℚ)/4, 1/4, 1/2] classCatalog []).1.confidence =
        round2 (100 * listMax [(1 : ℚ)/4, 1/4, 1/2]) ∧
      listMax [(1 : ℚ)/4, 1/4, 1/2] ∈ ([(1 : ℚ)/4, 1/4, 1/2] : List ℚ) ∧
      (interpret [(1 : ℚ)/4, 1/4, 1/2] classCatalog []).1.breakdown.length =
        ([(1 : ℚ)/4, 1/4, 1/2] : List ℚ).length ∧
      (interpret [(1 : ℚ)/4, 1/4, 1/2] classCatalog []).1.breakdown.map Prod.fst =
        classCatalog ∧
      (interpret [(1 : ℚ)/4, 1/4, 1/2] classCatalog []).1.breakdown.map Prod.snd =
        [(1 : ℚ)/4, 1/4, 1/2] ∧
      ((interpret [(1 : ℚ)/4, 1/4, 1/2] classCatalog []).1.breakdown.map
          Prod.snd).sum = 1) :=
  ⟨⟨by decide, by norm_num [List.sum_cons, List.sum_nil]⟩,
    interpret_confidence_breakdown [(1 : ℚ)/4, 1/4, 1/2] classCatalog []
      (by decide) (by norm_num [List.sum_cons, List.sum_nil])⟩

/-- Modelled from the spec: a PixelGrid is a height × width × 3 numeric array
(§3); we model it as dimensions plus a total channel-value function. -/
structure PixelGrid where
  h : ℕ
  w : ℕ
  pix : ℕ → ℕ → ℕ → ℚ

/-- Modelled from the spec: the fixed target resolution of the model input
(256 × 256, §3 NormalizedTensor). -/
def targetSize : ℕ := 256

/-- Modelled from the spec: source coordinate of an output index under the
deterministic resize policy (§4.2), scale factor inSize / targetSize. -/
def srcCoord (i size : ℕ) : ℚ := ((i * size : ℕ) : ℚ) / (targetSize : ℚ)

/-- Modelled from the spec: the lower sampling index for a source coordinate. -/
def lowIdx (c : ℚ) : ℕ := (⌊c⌋).toNat

/-- Modelled from the spec: the upper sampling index, clamped to the grid. -/
def highIdx (c : ℚ) (size : ℕ) : ℕ := min (lowIdx c + 1) (size - 1)

/-- Modelled from the spec: linear interpolation with weight w between a and b. -/
def lerp (w a b : ℚ) : ℚ := (1 - w) * a + w * b

/-- Modelled from the spec: bilinear interpolation of the grid at output
position (i, j) on channel c (§4.2 deterministic bilinear policy). -/
def bilinear (g : PixelGrid) (i j c : ℕ) : ℚ :=
  let sy := srcCoord i g.h
  let sx := srcCoord j g.w
  lerp (Int.fract sy)
    (lerp (Int.fract sx) (g.pix (lowIdx sy) (lowIdx sx) c)
      (g.pix (lowIdx sy) (highIdx sx g.w) c))
    (lerp (Int.fract sx) (g.pix (highIdx sy g.h) (lowIdx sx) c)
      (g.pix (highIdx sy g.h) (highIdx sx g.w) c))

/-- Modelled from the spec: `prepare(PixelGrid) -> NormalizedTensor` (§4.2):
resize to 256 × 256 by bilinear interpolation, then rescale every channel
value by dividing by 255. -/
def prepare (g : PixelGrid) : List (List (List ℚ)) :=
  (List.range targetSize).map fun i =>
    (List.range targetSize).map fun j =>
      (List.range 3).map fun c => bilinear g i j c / 255

lemma lerp_bounds (w a b lo hc : ℚ) (hw0 : 0 ≤ w) (hw1 : w ≤ 1)
    (ha1 : lo ≤ a) (ha2 : a ≤ hc) (hb1 : lo ≤ b) (hb2 : b ≤ hc) :
    lo ≤ lerp w a b ∧ lerp w a b ≤ hc := by
  unfold lerp
  constructor <;> nlinarith

lemma bilinear_bounds (g : PixelGrid)
    (hp : ∀ y x c, 0 ≤ g.pix y x c ∧ g.pix y x c ≤ 255) (i j c : ℕ) :
    0 ≤ bilinear g i j c ∧ bilinear g i j c ≤ 255 := by
  unfold bilinear
  have hy0 := Int.fract_nonneg (srcCoord i g.h)
  have hy1 := le_of_lt (Int.fract_lt_one (srcCoord i g.h))
  have hx0 := Int.fract_nonneg (srcCoord j g.w)
  have hx1 := le_of_lt (Int.fract_lt_one (srcCoord j g.w))
  have p00 := hp (lowIdx (srcCoord i g.h)) (lowIdx (srcCoord j g.w)) c
  have p01 := hp (lowIdx (srcCoord i g.h)) (highIdx (srcCoord j g.w) g.w) c
  have p10 := hp (highIdx (srcCoord i g.h) g.h) (lowIdx (srcCoord j g.w)) c
  have p11 := hp (highIdx (srcCoord i g.h) g.h) (highIdx (srcCoord j g.w) g.w) c
  have hrow0 := lerp_bounds (Int.fract (srcCoord j g.w)) _ _ 0 255
    hx0 hx1 p00.1 p00.2 p01.1 p01.2
  have hrow1 := lerp_bounds (Int.fract (srcCoord j g.w)) _ _ 0 255
    hx0 hx1 p10.1 p10.2 p11.1 p11.2
  exact lerp_bounds (Int.fract (srcCoord i g.h)) _ _ 0 255
    hy0 hy1 hrow0.1 hrow0.2 hrow1.1 hrow1.2

lemma getD_map_range {α : Type} (f : ℕ → α) (n i : ℕ) (hi : i < n) (d : α) :
    (((List.range n).map f).getD i d) = f i := by
  have hlen : i < ((List.range n).map f).length := by simpa using hi
  rw [List.getD_eq_getElem _ d hlen]
  simp

/-- Claim C3: for every PixelGrid with channel values in [0, 255], the
Preprocessor output has shape exactly 256 × 256 × 3, every value lies in
[0, 1], and each value is the (bilinearly resized) channel value divided by
255; `prepare` is a total function, so the step has no failure modes. -/
theorem prepare_shape_unit_range (g : PixelGrid)
    (hp : ∀ y x c, 0 ≤ g.pix y x c ∧ g.pix y x c ≤ 255) :
    (prepare g).length = 256 ∧
    (∀ row ∈ prepare g, row.length = 256 ∧
      ∀ px ∈ row, px.length = 3 ∧ ∀ val ∈ px, 0 ≤ val ∧ val ≤ 1) ∧
    (∀ i j c, i < 256 → j < 256 → c < 3 →
      (((prepare g).getD i []).getD j []).getD c 0 = bilinear g i j c / 255) := by
  refine ⟨by simp [prepare, targetSize], ?_, ?_⟩
  · intro row hrow
    simp only [prepare, List.mem_map, List.mem_range] at hrow
    obtain ⟨i, _, rfl⟩ := hrow
    refine ⟨by simp [targetSize], ?_⟩
    intro px hpx
    simp only [List.mem_map, List.mem_range] at hpx
    obtain ⟨j, _, rfl⟩ := hpx
    refine ⟨by simp, ?_⟩
    intro val hval
    simp only [List.mem_map, List.mem_range] at hval
    obtain ⟨c, _, rfl⟩ := hval
    have hb := bilinear_bounds g hp i j c
    constructor
    · exact div_nonneg hb.1 (by norm_num)
    · rw [div_le_one (by norm_num : (0 : ℚ) < 255)]
      exact hb.2
  · intro i j c hi hj hc
    unfold prepare
    rw [getD_map_range _ targetSize i (by simpa [targetSize] using hi) []]
    rw [getD_map_range _ targetSize j (by simpa [targetSize] using hj) []]
    rw [getD_map_range _ 3 c hc 0]

/-- Claim C3 witness: a 1 × 1 grid with constant channel value 100. -/
theorem prepare_shape_unit_range_witness :
    (∀ y x c, 0 ≤ (PixelGrid.mk 1 1 (fun _ _ _ => 100)).pix y x c ∧
        (PixelGrid.mk 1 1 (fun _ _ _ => 100)).pix y x c ≤ 255) ∧
    ((prepare (PixelGrid.mk 1 1 (fun _ _ _ => 100))).length = 256 ∧
      (∀ row ∈ prepare (PixelGrid.mk 1 1 (fun _ _ _ => 100)), row.length = 256 ∧
        ∀ px ∈ row, px.length = 3 ∧ ∀ val ∈ px, 0 ≤ val ∧ val ≤ 1) ∧
      (∀ i j c, i < 256 → j < 256 → c < 3 →
        (((prepare (PixelGrid.mk 1 1 (fun _ _ _ => 100))).getD i []).getD j
            []).getD c 0 =
          bilinear (PixelGrid.mk 1 1 (fun _ _ _ => 100)) i j c / 255)) :=
  ⟨fun _ _ _ => ⟨by norm_num, by norm_num⟩,
    prepare_shape_unit_range (PixelGrid.mk 1 1 (fun _ _ _ => 100))
      (fun _ _ _ => ⟨by norm_num, by norm_num⟩)⟩

/-- Modelled from the spec: the error taxonomy of the pipeline (§7). -/
inductive PipelineError
  | MissingInputError
  | PayloadTooLargeError
  | EncodingError
  | DecodeError
  | ModelUnavailableError
  | InternalError
deriving DecidableEq

/-- Modelled from the spec: the pipeline stages, recorded in invocation order
so temporal claims (which stages ran) can be stated (§4.5 data flow). -/
inductive Stage
  | sizeCheck
  | decode
  | preprocess
  | inference
  | interpretStage
deriving DecidableEq

/-- Modelled from the spec: the 10 MB payload ceiling (§4.1). -/
def MAX_BYTES : ℕ := 10 * 1024 * 1024

/-- Modelled from the spec: a raw image as seen by the facade — its byte size
and the result of the (external) codec on its bytes: `none` when the bytes are
not a valid or supported image (§4.1 DecodeError cases). -/
structure RawImage where
  size : ℕ
  decoded : Option PixelGrid

/-- Modelled from the spec: the echoed image metadata block (§6 image_info). -/
structure ImageInfo where
  height : ℕ
  width : ℕ
  channels : ℕ
deriving DecidableEq

/-- Modelled from the spec: the success response payload (§6). -/
structure Response where
  prediction : PredictionResult
  guidance : AdvisoryEntry
  image_info : ImageInfo

/-- Modelled from the spec: `handlePredictRequest` (§4.5): validate presence,
check the size ceiling before decode, decode, then preprocess → inference →
interpret, echoing the original grid dimensions; alongside the result it
returns the list of stages that were invoked, in order. -/
def handlePredictReq (catalog : List String)
    (bundle : List (String × AdvisoryEntry))
    (model : List (List (List ℚ)) → List ℚ) (input : Option RawImage) :
    Except PipelineError Response × List Stage :=
  match input with
  | none => (.error .MissingInputError, [])
  | some raw =>
    if MAX_BYTES < raw.size then
      (.error .PayloadTooLargeError, [.sizeCheck])
    else
      match raw.decoded with
      | none => (.error .DecodeError, [.sizeCheck, .decode])
      | some g =>
        if g.h = 0 ∨ g.w = 0 then
          (.error .DecodeError, [.sizeCheck, .decode])
        else
          let out := interpret (model (prepare g)) catalog bundle
          (.ok ⟨out.1, out.2, ⟨g.h, g.w, 3⟩⟩,
            [.sizeCheck, .decode, .preprocess, .inference, .interpretStage])

/-- Modelled from the spec: whether a character belongs to the base64
alphabet (§4.1 base64 validity). -/
def isB64Char (c : Char) : Bool :=
  (decide ('A' ≤ c) && decide (c ≤ 'Z')) ||
  (decide ('a' ≤ c) && decide (c ≤ 'z')) ||
  (decide ('0' ≤ c) && decide (c ≤ '9')) ||
  c == '+' || c == '/'

/-- Modelled from the spec: validity of a base64 string (§4.1): length a
multiple of 4, characters from the base64 alphabet, and padding only as a
trailing run of at most two characters. -/
def isValidBase64 (s : String) : Bool :=
  let cs := s.data
  (cs.length % 4 == 0) &&
  cs.all (fun c => isB64Char c || c == '=') &&
  (cs.dropWhile (fun c => !(c == '='))).all (fun c => c == '=') &&
  ((cs.filter (fun c => c == '=')).length ≤ 2)

/-- Modelled from the spec: the base64 entry point (§4.5, §4.1): reject a
missing field, reject malformed base64 with EncodingError, otherwise feed the
decoded byte buffer (abstracted by `toRaw`) into the shared pipeline. -/
def handlePredictBase64 (catalog : List String)
    (bundle : List (String × AdvisoryEntry))
    (model : List (List (List ℚ)) → List ℚ) (toRaw : String → RawImage)
    (input : Option String) : Except PipelineError Response × List Stage :=
  match input with
  | none => (.error .MissingInputError, [])
  | some s =>
    if isValidBase64 s then handlePredictReq catalog bundle model (some (toRaw s))
    else (.error .EncodingError, [])

/-- Claim C4: a byte buffer over the 10 MB ceiling fails with
PayloadTooLargeError, the trace contains only the size check, and decode is
never invoked — the size check strictly precedes any decode attempt. -/
theorem oversized_rejected_before_decode (catalog : List String)
    (bundle : List (String × AdvisoryEntry))
    (model : List (List (List ℚ)) → List ℚ) (raw : RawImage)
    (hs : MAX_BYTES < raw.size) :
    handlePredictReq catalog bundle model (some raw) =
      (.error .PayloadTooLargeError, [.sizeCheck]) ∧
    Stage.decode ∉ (handlePredictReq catalog bundle model (some raw)).2 := by
  have h : handlePredictReq catalog bundle model (some raw) =
      (.error .PayloadTooLargeError, [.sizeCheck]) := by
    simp only [handlePredictReq]
    rw [if_pos hs]
  refine ⟨h, ?_⟩
  rw [h]
  simp

/-- Claim C4 witness: an 11 MB buffer is rejected with the decode stage never
invoked. -/
theorem oversized_rejected_before_decode_witness :
    MAX_BYTES < (RawImage.mk (11 * 1024 * 1024) none).size ∧
    (handlePredictReq classCatalog [] (fun _ => [1, 0, 0])
        (some (RawImage.mk (11 * 1024 * 1024) none)) =
      (.error .PayloadTooLargeError, [.sizeCheck]) ∧
    Stage.decode ∉ (handlePredictReq classCatalog [] (fun _ => [1, 0, 0])
        (some (RawImage.mk (11 * 1024 * 1024) none))).2) :=
  ⟨by decide, oversized_rejected_before_decode classCatalog [] (fun _ => [1, 0, 0])
    (RawImage.mk (11 * 1024 * 1024) none) (by decide)⟩

/-- Claim C5: a string that is not valid base64 fails with EncodingError and
never with DecodeError; DecodeError arises (on this entry point) exactly for
strings that pass base64 validation but whose bytes do not decode to an
image. -/
theorem invalid_base64_encoding_error (catalog : List String)
    (bundle : List (String × AdvisoryEntry))
    (model : List (List (List ℚ)) → List ℚ) (toRaw : String → RawImage)
    (s : String) (hs : isValidBase64 s = false) :
    (handlePredictBase64 catalog bundle model toRaw (some s)).1 =
      .error .EncodingError ∧
    (handlePredictBase64 catalog bundle model toRaw (some s)).1 ≠
      .error .DecodeError ∧
    (∀ t : String, isValidBase64 t = true → (toRaw t).size ≤ MAX_BYTES →
      (toRaw t).decoded = none →
      (handlePredictBase64 catalog bundle model toRaw (some t)).1 =
        .error .DecodeError) := by
  have h : (handlePredictBase64 catalog bundle model toRaw (some s)).1 =
      .error .EncodingError := by
    simp only [handlePredictBase64]
    rw [if_neg (by simp [hs])]
  refine ⟨h, ?_, ?_⟩
  · rw [h]
    simp
  · intro t ht hsize hdec
    simp only [handlePredictBase64]
    rw [if_pos (by simp [ht])]
    simp only [handlePredictReq]
    rw [if_neg (not_lt.mpr hsize), hdec]

/-- Claim C5 witness: the string "ab!" is not valid base64 and is rejected
with EncodingError. -/
theorem invalid_base64_encoding_error_witness :
    isValidBase64 "ab!" = false ∧
    ((handlePredictBase64 classCatalog [] (fun _ => [1, 0, 0])
        (fun _ => RawImage.mk 4 none) (some "ab!")).1 = .error .EncodingError ∧
    (handlePredictBase64 classCatalog [] (fun _ => [1, 0, 0])
        (fun _ => RawImage.mk 4 none) (some "ab!")).1 ≠ .error .DecodeError ∧
    (∀ t : String, isValidBase64 t = true →
      ((fun _ => RawImage.mk 4 none : String → RawImage) t).size ≤ MAX_BYTES →
      ((fun _ => RawImage.mk 4 none : String → RawImage) t).decoded = none →
      (handlePredictBase64 classCatalog [] (fun _ => [1, 0, 0])
        (fun _ => RawImage.mk 4 none) (some t)).1 = .error .DecodeError)) :=
  ⟨by decide, invalid_base64_encoding_error classCatalog [] (fun _ => [1, 0, 0])
    (fun _ => RawImage.mk 4 none) "ab!" (by decide)⟩

/-- Claim C8: on every successful prediction the image_info block echoes the
height, width and channel count of the original decoded PixelGrid (before
resizing), never the 256 × 256 tensor shape. -/
theorem image_info_original_dims (catalog : List String)
    (bundle : List (String × AdvisoryEntry))
    (model : List (List (List ℚ)) → List ℚ) (raw : RawImage) (g : PixelGrid)
    (hsize : raw.size ≤ MAX_BYTES) (hdec : raw.decoded = some g)
    (hh : 0 < g.h) (hw : 0 < g.w) :
    (handlePredictReq catalog bundle model (some raw)).1 =
      .ok ⟨(interpret (model (prepare g)) catalog bundle).1,
           (interpret (model (prepare g)) catalog bundle).2,
           ⟨g.h, g.w, 3⟩⟩ := by
  simp only [handlePredictReq]
  rw [if_neg (not_lt.mpr hsize), hdec]
  dsimp only
  rw [if_neg (by omega : ¬(g.h = 0 ∨ g.w = 0))]

/-- Claim C8 witness: a 640 × 480 decoded image yields image_info
height 480, width 640, channels 3. -/
theorem image_info_original_dims_witness :
    ((RawImage.mk 1000 (some (PixelGrid.mk 480 640 (fun _ _ _ => 0)))).size ≤
        MAX_BYTES ∧
      (RawImage.mk 1000 (some (PixelGrid.mk 480 640 (fun _ _ _ => 0)))).decoded =
        some (PixelGrid.mk 480 640 (fun _ _ _ => 0)) ∧
      0 < (PixelGrid.mk 480 640 (fun _ _ _ => 0)).h ∧
      0 < (PixelGrid.mk 480 640 (fun _ _ _ => 0)).w) ∧
    (handlePredictReq classCatalog [] (fun _ => [1, 0, 0])
        (some (RawImage.mk 1000 (some (PixelGrid.mk 480 640 (fun _ _ _ => 0)))))).1 =
      .ok ⟨(interpret ((fun _ => [1, 0, 0])
              (prepare (PixelGrid.mk 480 640 (fun _ _ _ => 0)))) classCatalog []).1,
           (interpret ((fun _ => [1, 0, 0])
              (prepare (PixelGrid.mk 480 640 (fun _ _ _ => 0)))) classCatalog []).2,
           ⟨480, 640, 3⟩⟩ :=
  ⟨⟨by decide, rfl, by decide, by decide⟩,
    image_info_original_dims classCatalog [] (fun _ => [1, 0, 0])
      (RawImage.mk 1000 (some (PixelGrid.mk 480 640 (fun _ _ _ => 0))))
      (PixelGrid.mk 480 640 (fun _ _ _ => 0))
      (by decide) rfl (by decide) (by decide)⟩

/-- The prediction block of a backend response as the frontend consumes it
(`data.prediction` in PredictorCard). -/
structure PredJson where
  disease : String
  confidence : ℚ
  all_predictions : List (String × ℚ)
deriving DecidableEq

/-- A JavaScript value as it may appear in the `guidance.tips` field: the
frontend only distinguishes arrays (of tip strings) from everything else via
Array.isArray. -/
inductive JsVal
  | vUndef
  | vNull
  | vBool (b : Bool)
  | vNum (q : ℚ)
  | vStr (s : String)
  | vArr (xs : List String)
deriving DecidableEq

/-- Array.isArray on a JsVal. -/
def JsVal.isArray : JsVal → Bool
  | .vArr _ => true
  | _ => false

/-- The guidance block of a backend response (`data.guidance`). -/
structure GuidanceData where
  status : String
  tips : JsVal
deriving DecidableEq

/-- The parsed JSON body of a /predict response as the frontend reads it. -/
structure PredictData where
  success : Bool
  prediction : Option PredJson
  guidance : Option GuidanceData
  error : Option String

/-- Outcome of the frontend fetch to /predict: network failure (fetch
throws), a non-ok HTTP status, or a parsed JSON body. -/
inductive FetchOutcome
  | netFail (msg : String)
  | httpError (status : ℕ)
  | jsonOk (d : PredictData)

/-- The React state of PredictorCard: the eight useState fields of both
variants in Header.jsx. -/
structure CardState where
  image : Option String
  preview : Option String
  loading : Bool
  prediction : Option PredJson
  error : Option String
  guidance : Option GuidanceData
  backendOnline : Bool
  backendMessage : String
deriving DecidableEq

/-- Tip-list rendering of PredictionResults (extracted component): the tip
strings when `guidance?.tips` is an array, else the fixed fallback item. -/
def renderTips (tips : JsVal) : List String :=
  match tips with
  | .vArr xs => xs
  | _ => ["No recommendations available"]

/-- handleImageSelect of the modular PredictorCard (Header.jsx): a selected
file sets the image and a data-URL preview and resets prediction, guidance
and error; no file leaves the state unchanged. -/
def modHandleImageSelect (s : CardState) (file : Option String) : CardState :=
  match file with
  | none => s
  | some f =>
    { s with image := some f, preview := some ("data:" ++ f),
             prediction := none, guidance := none, error := none }

/-- handlePredict of the modular PredictorCard (Header.jsx): with no image it
sets the error message and returns without fetching; otherwise it clears
error and prediction, fetches, and installs the outcome, with loading reset
at the end. The Bool reports whether a network request was issued. -/
def modHandlePredict (s : CardState) (o : FetchOutcome) : CardState × Bool :=
  match s.image with
  | none => ({ s with error := some "Please select an image first" }, false)
  | some _ =>
    let s1 := { s with loading := true, error := none, prediction := none }
    let s2 :=
      match o with
      | .netFail msg => { s1 with error := some ("Error: " ++ msg) }
      | .httpError st =>
        { s1 with error := some ("Error: HTTP error! status: " ++ toString st) }
      | .jsonOk d =>
        if d.success then
          { s1 with prediction := d.prediction, guidance := d.guidance }
        else { s1 with error := some (d.error.getD "Failed to get prediction") }
    ({ s2 with loading := false }, true)

/-- handleClear of the modular PredictorCard (Header.jsx). -/
def modHandleClear (s : CardState) : CardState :=
  { s with image := none, preview := none, prediction := none,
           guidance := none, error := none }

/-- pingBackend of the modular PredictorCard (Header.jsx): a reachable
backend reports its TensorFlow version, an unreachable one the fixed
offline message. -/
def modPingBackend (s : CardState) (res : Option String) : CardState :=
  match res with
  | some tf =>
    { s with backendOnline := true, backendMessage := "Backend OK • TF " ++ tf }
  | none =>
    { s with backendOnline := false,
             backendMessage := "Backend unreachable. Start API at port 5000." }

lemma interpret_advisory_miss (v : List ℚ) (catalog : List String)
    (bundle : List (String × AdvisoryEntry))
    (hmiss : bundle.find? (fun p => p.1 = catalog.getD (argmax v) "") = none) :
    (interpret v catalog bundle).2 = ⟨"", []⟩ := by
  simp only [interpret]
  rw [hmiss]

/-- Claim C6: an advisory-lookup miss is non-fatal — the interpreter returns
an empty tips list, the request still succeeds with the prediction block
(label and confidence) intact, and the frontend renders the fixed fallback
item whenever `guidance.tips` is not an array. -/
theorem advisory_miss_nonfatal (catalog : List String)
    (bundle : List (String × AdvisoryEntry))
    (model : List (List (List ℚ)) → List ℚ) (raw : RawImage) (g : PixelGrid)
    (v : List ℚ) (hsize : raw.size ≤ MAX_BYTES) (hdec : raw.decoded = some g)
    (hh : 0 < g.h) (hw : 0 < g.w) (hv : v = model (prepare g))
    (hmiss : bundle.find? (fun p => p.1 = catalog.getD (argmax v) "") = none) :
    (interpret v catalog bundle).2.tips = [] ∧
    (handlePredictReq catalog bundle model (some raw)).1 =
      .ok ⟨(interpret v catalog bundle).1, ⟨"", []⟩, ⟨g.h, g.w, 3⟩⟩ ∧
    (∀ jv : JsVal, jv.isArray = false →
      renderTips jv = ["No recommendations available"]) := by
  have hadv : (interpret v catalog bundle).2 = ⟨"", []⟩ :=
    interpret_advisory_miss v catalog bundle hmiss
  refine ⟨by rw [hadv], ?_, ?_⟩
  · simp only [handlePredictReq]
    rw [if_neg (not_lt.mpr hsize), hdec]
    dsimp only
    rw [if_neg (by omega : ¬(g.h = 0 ∨ g.w = 0))]
    rw [← hv, hadv]
  · intro jv hjv
    cases jv with
    | vArr xs => simp [JsVal.isArray] at hjv
    | vUndef => rfl
    | vNull => rfl
    | vBool b => rfl
    | vNum q => rfl
    | vStr t => rfl

/-- Claim C6 witness: an empty advisory bundle misses every label; the
request still succeeds and the tips list is empty, and a null tips field
renders the fallback. -/
theorem advisory_miss_nonfatal_witness :
    ((RawImage.mk 5 (some (PixelGrid.mk 2 2 (fun _ _ _ => 7)))).size ≤ MAX_BYTES ∧
      ([] : List (String × AdvisoryEntry)).find?
        (fun p => p.1 = classCatalog.getD (argmax [(1 : ℚ), 0, 0]) "") = none) ∧
    ((interpret [(1 : ℚ), 0, 0] classCatalog []).2.tips = [] ∧
    (handlePredictReq classCatalog [] (fun _ => [(1 : ℚ), 0, 0])
        (some (RawImage.mk 5 (some (PixelGrid.mk 2 2 (fun _ _ _ => 7)))))).1 =
      .ok ⟨(interpret [(1 : ℚ), 0, 0] classCatalog []).1, ⟨"", []⟩, ⟨2, 2, 3⟩⟩ ∧
    (∀ jv : JsVal, jv.isArray = false →
      renderTips jv = ["No recommendations available"])) :=
  ⟨⟨by decide, rfl⟩,
    advisory_miss_nonfatal classCatalog [] (fun _ => [(1 : ℚ), 0, 0])
      (RawImage.mk 5 (some (PixelGrid.mk 2 2 (fun _ _ _ => 7))))
      (PixelGrid.mk 2 2 (fun _ _ _ => 7)) [(1 : ℚ), 0, 0]
      (by decide) rfl (by decide) (by decide) rfl rfl⟩

/-- Claim C7: a request with no image fails with MissingInputError and no
inference stage is ever invoked; the frontend handlePredict with no selected
image sets the error message "Please select an image first" and returns
without issuing a network request and without touching loading or
prediction state. -/
theorem missing_input_rejected (catalog : List String)
    (bundle : List (String × AdvisoryEntry))
    (model : List (List (List ℚ)) → List ℚ) (s : CardState) (o : FetchOutcome)
    (himg : s.image = none) :
    handlePredictReq catalog bundle model none =
      (.error .MissingInputError, []) ∧
    Stage.inference ∉ (handlePredictReq catalog bundle model none).2 ∧
    modHandlePredict s o =
      ({ s with error := some "Please select an image first" }, false) := by
  refine ⟨rfl, by simp [handlePredictReq], ?_⟩
  unfold modHandlePredict
  rw [himg]

/-- Claim C7 witness: a concrete state with no selected image. -/
theorem missing_input_rejected_witness :
    (CardState.mk none none false none none none true "").image = none ∧
    (handlePredictReq classCatalog [] (fun _ => [1, 0, 0]) none =
      (.error .MissingInputError, []) ∧
    Stage.inference ∉ (handlePredictReq classCatalog [] (fun _ => [1, 0, 0])
        none).2 ∧
    modHandlePredict (CardState.mk none none false none none none true "")
        (.netFail "boom") =
      ({ CardState.mk none none false none none none true "" with
          error := some "Please select an image first" }, false)) :=
  ⟨rfl, missing_input_rejected classCatalog [] (fun _ => [1, 0, 0])
    (CardState.mk none none false none none none true "") (.netFail "boom") rfl⟩

/-- Claim C9: the styling lookups are total with a defined fallback — the
three known class names map to their fixed color and emoji, and every other
string maps to the fallback color `#2196F3` and the fallback emoji. -/
theorem status_lookup_total (s : String) :
    (s = "Healthy" → getStatusColor s = "#4CAF50" ∧ getStatusEmoji s = "🟢") ∧
    (s = "Early Blight" → getStatusColor s = "#FF9800" ∧ getStatusEmoji s = "🟠") ∧
    (s = "Late Blight" → getStatusColor s = "#F44336" ∧ getStatusEmoji s = "🔴") ∧
    (s ≠ "Healthy" → s ≠ "Early Blight" → s ≠ "Late Blight" →
      getStatusColor s = "#2196F3" ∧ getStatusEmoji s = "❓") := by
  refine ⟨?_, ?_, ?_, ?_⟩
  · intro h; subst h; exact ⟨rfl, rfl⟩
  · intro h; subst h; exact ⟨rfl, rfl⟩
  · intro h; subst h; exact ⟨rfl, rfl⟩
  · intro h1 h2 h3
    constructor
    · simp only [getStatusColor, if_neg h1, if_neg h2, if_neg h3]
    · simp only [getStatusEmoji, if_neg h1, if_neg h2, if_neg h3]

/-- Claim C9 witness: an unrecognized label receives the fallback color and
emoji. -/
theorem status_lookup_total_witness :
    getStatusColor "Tomato Mosaic" = "#2196F3" ∧
    getStatusEmoji "Tomato Mosaic" = "❓" :=
  (status_lookup_total "Tomato Mosaic").2.2.2 (by decide) (by decide) (by decide)

/-- handleImageSelect of the monolithic PredictorCard (Header.jsx, inline
variant). -/
def monoHandleImageSelect (s : CardState) (file : Option String) : CardState :=
  match file with
  | none => s
  | some f =>
    { s with image := some f, preview := some ("data:" ++ f),
             prediction := none, guidance := none, error := none }

/-- handlePredict of the monolithic PredictorCard (Header.jsx, inline
variant). -/
def monoHandlePredict (s : CardState) (o : FetchOutcome) : CardState × Bool :=
  match s.image with
  | none => ({ s with error := some "Please select an image first" }, false)
  | some _ =>
    let s1 := { s with loading := true, error := none, prediction := none }
    let s2 :=
      match o with
      | .netFail msg => { s1 with error := some ("Error: " ++ msg) }
      | .httpError st =>
        { s1 with error := some ("Error: HTTP error! status: " ++ toString st) }
      | .jsonOk d =>
        if d.success then
          { s1 with prediction := d.prediction, guidance := d.guidance }
        else { s1 with error := some (d.error.getD "Failed to get prediction") }
    ({ s2 with loading := false }, true)

/-- handleClear of the monolithic PredictorCard (Header.jsx, inline
variant). -/
def monoHandleClear (s : CardState) : CardState :=
  { s with image := none, preview := none, prediction := none,
           guidance := none, error := none }

/-- pingBackend of the monolithic PredictorCard (Header.jsx, inline
variant). -/
def monoPingBackend (s : CardState) (res : Option String) : CardState :=
  match res with
  | some tf =>
    { s with backendOnline := true, backendMessage := "Backend OK • TF " ++ tf }
  | none =>
    { s with backendOnline := false,
             backendMessage := "Backend unreachable. Start API at port 5000." }

/-- User interactions and asynchronous results a PredictorCard reacts to. -/
inductive UiEvent
  | selectImage (file : Option String)
  | predictClick (o : FetchOutcome)
  | clearClick
  | healthResult (res : Option String)

/-- One state transition of the monolithic PredictorCard. -/
def monoStep (s : CardState) : UiEvent → CardState
  | .selectImage f => monoHandleImageSelect s f
  | .predictClick o => (monoHandlePredict s o).1
  | .clearClick => monoHandleClear s
  | .healthResult r => monoPingBackend s r

/-- One state transition of the modular PredictorCard. -/
def modStep (s : CardState) : UiEvent → CardState
  | .selectImage f => modHandleImageSelect s f
  | .predictClick o => (modHandlePredict s o).1
  | .clearClick => modHandleClear s
  | .healthResult r => modPingBackend s r

/-- State of the monolithic PredictorCard after a sequence of events. -/
def runMono (s : CardState) (es : List UiEvent) : CardState :=
  es.foldl monoStep s

/-- State of the modular PredictorCard after a sequence of events. -/
def runMod (s : CardState) (es : List UiEvent) : CardState :=
  es.foldl modStep s

/-- Display formatting of a score percentage, `(score * 100).toFixed(2)`. -/
def toFixed2 (q : ℚ) : String := toString (round2 q)

/-- Visible text of the Header component (Header.jsx). -/
def headerRender : List String :=
  ["🌱 Plant Disease Detector", "Upload a potato leaf image to detect diseases"]

/-- Visible text of the UploadSection component (UploadSection.jsx). -/
def uploadSectionRender (preview : Option String) : List String :=
  match preview with
  | none => ["📸", "Click to upload or drag and drop", "PNG, JPG, GIF up to 10MB"]
  | some _ => ["Clear Image"]

/-- Visible text of the BackendStatus component (BackendStatus.jsx). -/
def backendStatusRender (online : Bool) (message : String) : List String :=
  if online then [] else ["❌ " ++ message]

/-- Visible text of the PredictButton component (extracted component file). -/
def predictButtonRender (shown loading : Bool) : List String :=
  if shown then [if loading then "Analyzing... ⏳" else "Predict Disease 🔍"]
  else []

/-- Visible text of the ErrorAlert component (ErrorAlert.jsx); an empty
message string is falsy in JavaScript and renders nothing. -/
def errorAlertRender (message : Option String) : List String :=
  match message with
  | none => []
  | some m => if m = "" then [] else ["❌ " ++ m]

/-- Visible text of the PredictionResults component (extracted component
file). -/
def predictionResultsRender (prediction : Option PredJson)
    (guidance : Option GuidanceData) : List String :=
  match prediction with
  | none => []
  | some p =>
    [getStatusEmoji p.disease, p.disease]
    ++ (match guidance with
        | none => []
        | some gd => if gd.status = "" then [] else [gd.status])
    ++ [toString p.confidence ++ "%"]
    ++ ["All Predictions:"]
    ++ p.all_predictions.foldr
        (fun pr acc => pr.1 :: (toFixed2 (100 * pr.2) ++ "%") :: acc) []
    ++ ["💡 Recommendations:"]
    ++ renderTips (match guidance with | none => .vUndef | some gd => gd.tips)
    ++ ["Try Another Image"]

/-- Visible text of the LoadingState component (LoadingState.jsx). -/
def loadingStateRender (loading : Bool) : List String :=
  if loading then ["Analyzing image..."] else []

/-- Visible text of the monolithic PredictorCard, translated inline from its
JSX in document order. -/
def monoRender (s : CardState) : List String :=
  ["🌱 Plant Disease Detector", "Upload a potato leaf image to detect diseases"]
  ++ (match s.preview with
      | none =>
        ["📸", "Click to upload or drag and drop", "PNG, JPG, GIF up to 10MB"]
      | some _ => ["Clear Image"])
  ++ (if s.backendOnline then [] else ["❌ " ++ s.backendMessage])
  ++ (if s.image.isSome && s.backendOnline then
        [if s.loading then "Analyzing... ⏳" else "Predict Disease 🔍"]
      else [])
  ++ (match s.error with
      | none => []
      | some m => if m = "" then [] else ["❌ " ++ m])
  ++ (match s.prediction with
      | none => []
      | some p =>
        [getStatusEmoji p.disease, p.disease]
        ++ (match s.guidance with
            | none => []
            | some gd => if gd.status = "" then [] else [gd.status])
        ++ [toString p.confidence ++ "%"]
        ++ ["All Predictions:"]
        ++ p.all_predictions.foldr
            (fun pr acc => pr.1 :: (toFixed2 (100 * pr.2) ++ "%") :: acc) []
        ++ ["💡 Recommendations:"]
        ++ renderTips (match s.guidance with | none => .vUndef | some gd => gd.tips)
        ++ ["Try Another Image"])
  ++ (if s.loading then ["Analyzing image..."] else [])

/-- Visible text of the modular PredictorCard: composition of the child
components exactly as its JSX passes props to them. -/
def modRender (s : CardState) : List String :=
  headerRender
  ++ uploadSectionRender s.preview
  ++ backendStatusRender s.backendOnline s.backendMessage
  ++ predictButtonRender (s.image.isSome && s.backendOnline) s.loading
  ++ errorAlertRender s.error
  ++ predictionResultsRender s.prediction s.guidance
  ++ loadingStateRender s.loading

lemma step_eq : ∀ (s : CardState) (e : UiEvent), monoStep s e = modStep s e := by
  intro s e
  cases e <;> rfl

/-- Claim C10: the monolithic and the modular PredictorCard are behaviorally
equivalent — every handler computes the same state, every event sequence
leads to the same state, and the rendered user-visible text is identical in
every state. -/
theorem predictor_card_equiv :
    (∀ (s : CardState) (f : Option String),
      monoHandleImageSelect s f = modHandleImageSelect s f) ∧
    (∀ (s : CardState) (o : FetchOutcome),
      monoHandlePredict s o = modHandlePredict s o) ∧
    (∀ s : CardState, monoHandleClear s = modHandleClear s) ∧
    (∀ (s : CardState) (r : Option String),
      monoPingBackend s r = modPingBackend s r) ∧
    (∀ (s : CardState) (e : UiEvent), monoStep s e = modStep s e) ∧
    (∀ (s : CardState) (es : List UiEvent), runMono s es = runMod s es) ∧
    (∀ s : CardState, monoRender s = modRender s) := by
  refine ⟨fun s f => rfl, fun s o => rfl, fun s => rfl, fun s r => rfl,
    step_eq, ?_, fun s => rfl⟩
  intro s es
  induction es generalizing s with
  | nil => rfl
  | cons e t ih =>
    simp only [runMono, runMod, List.foldl_cons] at ih ⊢
    rw [step_eq s e]
    exact ih (modStep s e)

end PlantDisease
